import Mathlib

/-!
Verification of the financial calculation and screening engine of the
stock-warrant-analyzer repository.

The TypeScript source computes over IEEE doubles; the shallow embedding below
uses exact rationals (`ℚ`), translating each source formula verbatim.
Optional / possibly-undefined JavaScript values are embedded as `Option ℚ`,
and JavaScript truthiness tests on numbers are embedded as a test against `0`.
-/

namespace WarrantAnalyzer

/-- Result record of `calculateCost` (utils/calculations). -/
structure CostBreakdown where
  principal : ℚ
  buyFee : ℚ
  totalCost : ℚ
deriving DecidableEq, Repr

/-- Result record of `calculateRevenue` (utils/calculations). -/
structure RevenueBreakdown where
  grossRevenue : ℚ
  sellFee : ℚ
  sellTax : ℚ
  netRevenue : ℚ
deriving DecidableEq, Repr

/-- Result record of `calculateProfitLoss` (utils/calculations). -/
structure ProfitLossResult where
  cost : CostBreakdown
  revenue : RevenueBreakdown
  profit : ℚ
  profitPercent : ℚ
  isProfit : Bool
deriving DecidableEq, Repr

/-- Result record of `calculateBreakEven` (utils/calculations). -/
structure BreakEvenResult where
  breakEvenPrice : ℚ
  isProfitable : Bool
  profitMargin : ℚ
  profitMarginPercent : ℚ
deriving DecidableEq, Repr

/-- Result record of `calculateExerciseValue` (utils/calculations). -/
structure ExerciseResult where
  exerciseValue : ℚ
  isInTheMoney : Bool
  intrinsicValue : ℚ
  timeValue : ℚ
  exerciseProfit : ℚ
deriving DecidableEq, Repr

/-- Constant `DEFAULT_BUY_FEE_PERCENT = 0.15` from utils/calculations. -/
def DEFAULT_BUY_FEE_PERCENT : ℚ := 15 / 100

/-- Constant `DEFAULT_SELL_FEE_PERCENT = 0.15` from utils/calculations. -/
def DEFAULT_SELL_FEE_PERCENT : ℚ := 15 / 100

/-- Constant `DEFAULT_SELL_TAX_PERCENT = 0.1` from utils/calculations. -/
def DEFAULT_SELL_TAX_PERCENT : ℚ := 1 / 10

/-- Embedding of `calculateCost(buyPrice, quantity, buyFeePercent)`. -/
def calculateCost (buyPrice quantity buyFeePercent : ℚ) : CostBreakdown :=
  let principal := buyPrice * quantity
  let buyFee := principal * buyFeePercent / 100
  { principal := principal
    buyFee := buyFee
    totalCost := principal + buyFee }

/-- Embedding of `calculateRevenue(sellPrice, quantity, sellFeePercent, taxPercent)`. -/
def calculateRevenue (sellPrice quantity sellFeePercent taxPercent : ℚ) : RevenueBreakdown :=
  let grossRevenue := sellPrice * quantity
  let sellFee := grossRevenue * sellFeePercent / 100
  let sellTax := grossRevenue * taxPercent / 100
  { grossRevenue := grossRevenue
    sellFee := sellFee
    sellTax := sellTax
    netRevenue := grossRevenue - sellFee - sellTax }

/-- Embedding of `calculateProfitLoss(buyPrice, sellPrice, quantity, buyFeePercent,
sellFeePercent, taxPercent)`. -/
def calculateProfitLoss (buyPrice sellPrice quantity buyFeePercent sellFeePercent
    taxPercent : ℚ) : ProfitLossResult :=
  let cost := calculateCost buyPrice quantity buyFeePercent
  let revenue := calculateRevenue sellPrice quantity sellFeePercent taxPercent
  let profit := revenue.netRevenue - cost.totalCost
  let profitPercent := if cost.totalCost > 0 then profit / cost.totalCost * 100 else 0
  { cost := cost
    revenue := revenue
    profit := profit
    profitPercent := profitPercent
    isProfit := decide (profit > 0) }

/-- Embedding of `calculateBreakEven(cwPrice, conversionRatio, exercisePrice,
targetUnderlyingPrice?)`.  The optional argument is an `Option ℚ`; the source
tests it with JavaScript truthiness (`targetUnderlyingPrice ? _ : _`), which is
false for `undefined` and for `0`. -/
def calculateBreakEven (cwPrice conversionRatio exercisePrice : ℚ)
    (targetUnderlyingPrice : Option ℚ) : BreakEvenResult :=
  let breakEvenPrice := cwPrice * conversionRatio + exercisePrice
  let isProfitable :=
    match targetUnderlyingPrice with
    | some t => if t ≠ 0 then decide (t > breakEvenPrice) else false
    | none => false
  let profitMargin :=
    match targetUnderlyingPrice with
    | some t => if t ≠ 0 then t - breakEvenPrice else 0
    | none => 0
  let profitMarginPercent :=
    if breakEvenPrice > 0 then profitMargin / breakEvenPrice * 100 else 0
  { breakEvenPrice := breakEvenPrice
    isProfitable := isProfitable
    profitMargin := profitMargin
    profitMarginPercent := profitMarginPercent }

/-- Embedding of `calculateExerciseValue(underlyingPrice, exercisePrice,
conversionRatio, currentCwPrice, quantity = 1, buyPrice?, buyFeePercent)`.
`buyPrice` is optional in the source (`buyPrice !== undefined` is a presence
test); `quantity` defaults to `1` at the call boundary, so it is a plain `ℚ`
here. -/
def calculateExerciseValue (underlyingPrice exercisePrice conversionRatio
    currentCwPrice quantity : ℚ) (buyPrice : Option ℚ) (buyFeePercent : ℚ) :
    ExerciseResult :=
  let rawIntrinsicValue := (underlyingPrice - exercisePrice) / conversionRatio
  let intrinsicValue := max 0 rawIntrinsicValue
  let isInTheMoney := decide (underlyingPrice > exercisePrice)
  let timeValue := max 0 (currentCwPrice - intrinsicValue)
  let exerciseProfit :=
    match buyPrice with
    | some bp =>
      if quantity > 0 then
        intrinsicValue * quantity - (calculateCost bp quantity buyFeePercent).totalCost
      else 0
    | none => 0
  { exerciseValue := intrinsicValue
    isInTheMoney := isInTheMoney
    intrinsicValue := intrinsicValue
    timeValue := timeValue
    exerciseProfit := exerciseProfit }

/-- `WarrantPosition` from types/warrant. -/
structure WarrantPosition where
  symbol : String
  buyPrice : ℚ
  quantity : ℚ
  buyFeePercent : ℚ
deriving DecidableEq, Repr

/-- `WarrantScenario` from types/warrant. -/
structure WarrantScenario where
  id : String
  sellPrice : ℚ
  sellFeePercent : ℚ
  taxPercent : ℚ
deriving DecidableEq, Repr

/-- Result record of `calculateScenario` (utils/calculations). -/
structure ScenarioResult where
  scenarioId : String
  sellPrice : ℚ
  profitLoss : ProfitLossResult
deriving DecidableEq, Repr

/-- Embedding of `calculateScenario(position, scenario)` from utils/calculations:
profit/loss with the position's buy data and the scenario's own sell fee and tax
rates. -/
def calculateScenario (position : WarrantPosition) (scenario : WarrantScenario) :
    ScenarioResult :=
  { scenarioId := scenario.id
    sellPrice := scenario.sellPrice
    profitLoss := calculateProfitLoss position.buyPrice scenario.sellPrice
      position.quantity position.buyFeePercent scenario.sellFeePercent
      scenario.taxPercent }

/-- `FeeSettings` from stores/useWarrantStore. -/
structure FeeSettings where
  buyFeePercent : ℚ
  sellFeePercent : ℚ
  sellTaxPercent : ℚ
deriving DecidableEq, Repr

/-- `StockPosition` from types/scenario. -/
structure StockPosition where
  symbol : String
  buyPrice : ℚ
  quantity : ℚ
  buyFeePercent : ℚ
deriving DecidableEq, Repr

/-- `StockScenario` from types/scenario. -/
structure StockScenario where
  id : String
  sellPrice : ℚ
  sellFeePercent : ℚ
  taxPercent : ℚ
deriving DecidableEq, Repr

/-- `ScenarioRow` from types/scenario; `breakEvenPrice` is optional there
(present only for stock rows). -/
structure ScenarioRow where
  id : String
  sellPrice : ℚ
  grossRevenue : ℚ
  sellFee : ℚ
  sellTax : ℚ
  netRevenue : ℚ
  profit : ℚ
  profitPercent : ℚ
  isProfit : Bool
  breakEvenPrice : Option ℚ
deriving DecidableEq, Repr

/-- Embedding of `calculateScenarioRow(scenario, position, feeSettings, isWarrant)`
from hooks/useScenarioCalculations: note the source passes
`feeSettings.sellFeePercent` and `feeSettings.sellTaxPercent` (not the
scenario's own rates) into `calculateProfitLoss` and into the break-even
figure. -/
def calculateScenarioRow (scenario : StockScenario) (position : StockPosition)
    (feeSettings : FeeSettings) (isWarrant : Bool) : ScenarioRow :=
  let result := calculateProfitLoss position.buyPrice scenario.sellPrice
    position.quantity feeSettings.buyFeePercent feeSettings.sellFeePercent
    feeSettings.sellTaxPercent
  let breakEvenPrice : Option ℚ :=
    if !isWarrant then
      let principal := position.buyPrice * position.quantity
      let buyFee := principal * feeSettings.buyFeePercent / 100
      let sellFee := scenario.sellPrice * position.quantity * feeSettings.sellFeePercent / 100
      let sellTax := scenario.sellPrice * position.quantity * feeSettings.sellTaxPercent / 100
      let totalCosts := buyFee + sellFee + sellTax
      some (if position.quantity > 0 then (principal + totalCosts) / position.quantity else 0)
    else none
  { id := scenario.id
    sellPrice := scenario.sellPrice
    grossRevenue := result.revenue.grossRevenue
    sellFee := result.revenue.sellFee
    sellTax := result.revenue.sellTax
    netRevenue := result.revenue.netRevenue
    profit := result.profit
    profitPercent := result.profitPercent
    isProfit := result.isProfit
    breakEvenPrice := breakEvenPrice }

/-- Embedding of the per-scenario row computation inlined in the analysis page
(`scenarioResults` in app/analysis/[code]/page): profit/loss uses the
position's `buyFeePercent` and the scenario's own `sellFeePercent` and
`taxPercent`; the break-even figure likewise uses the scenario's own rates, and
is reported only for non-warrant positions. -/
def pageScenarioRow (position : StockPosition) (scenario : StockScenario)
    (isWarrant : Bool) : ScenarioRow :=
  let result := calculateProfitLoss position.buyPrice scenario.sellPrice
    position.quantity position.buyFeePercent scenario.sellFeePercent
    scenario.taxPercent
  let principal := position.buyPrice * position.quantity
  let buyFee := principal * position.buyFeePercent / 100
  let sellFee := scenario.sellPrice * position.quantity * scenario.sellFeePercent / 100
  let sellTax := scenario.sellPrice * position.quantity * scenario.taxPercent / 100
  let totalCosts := buyFee + sellFee + sellTax
  let breakEvenPrice := if position.quantity > 0 then (principal + totalCosts) / position.quantity else 0
  { id := scenario.id
    sellPrice := scenario.sellPrice
    grossRevenue := result.revenue.grossRevenue
    sellFee := result.revenue.sellFee
    sellTax := result.revenue.sellTax
    netRevenue := result.revenue.netRevenue
    profit := result.profit
    profitPercent := result.profitPercent
    isProfit := result.isProfit
    breakEvenPrice := if isWarrant then none else some breakEvenPrice }

/-- `WarrantItem` from types/api, restricted to the fields the embedded
calculations and the screener pipeline read (`symbol`, `current_price`,
`conversion_ratio`, `exercise_price`, `days_to_maturity`, `volume`); the
remaining quote fields are carried through unchanged by the source and never
read by any embedded operation. -/
structure WarrantItem where
  symbol : String
  current_price : ℚ
  conversion_ratio : ℚ
  exercise_price : ℚ
  days_to_maturity : ℚ
  volume : ℚ
deriving DecidableEq, Repr

/-- `WarrantTableRow` from hooks/useWarrantCalculations: the warrant quote
(spread into the row by the source) plus the computed metrics. -/
structure WarrantTableRow extends WarrantItem where
  breakEven : ℚ
  isProfitable : Bool
  profitMargin : ℚ
  profitMarginPercent : ℚ
  estimatedProfit : ℚ
  estimatedProfitPercent : ℚ
  totalCost : ℚ
  netRevenue : ℚ
  leverage : ℚ
deriving DecidableEq, Repr

/-- Embedding of `getTimeValueFactor(daysToMaturity)` from
hooks/useWarrantCalculations. -/
def getTimeValueFactor (daysToMaturity : ℚ) : ℚ :=
  if daysToMaturity > 30 then 1
  else if daysToMaturity > 14 then 8 / 10
  else 5 / 10

/-- The estimated sell price computed inside `calculateWarrantMetrics`
(hooks/useWarrantCalculations lines 64-77), extracted as a named function:
intrinsic values at the current and target underlying prices, current time
value, maturity-bucket decay factor, floored at zero. -/
def estimatedSellPrice (warrant : WarrantItem) (underlyingPrice targetPrice : ℚ) : ℚ :=
  let currentIntrinsicValue := max 0 ((underlyingPrice - warrant.exercise_price) / warrant.conversion_ratio)
  let targetIntrinsicValue := max 0 ((targetPrice - warrant.exercise_price) / warrant.conversion_ratio)
  let currentTimeValue := max 0 (warrant.current_price - currentIntrinsicValue)
  let timeValueFactor := getTimeValueFactor warrant.days_to_maturity
  max 0 (targetIntrinsicValue + currentTimeValue * timeValueFactor)

/-- Embedding of `calculateWarrantMetrics(warrant, underlyingPrice, targetPrice,
quantity, feeSettings)` from hooks/useWarrantCalculations. -/
def calculateWarrantMetrics (warrant : WarrantItem) (underlyingPrice targetPrice
    quantity : ℚ) (feeSettings : FeeSettings) : WarrantTableRow :=
  let breakEvenResult := calculateBreakEven warrant.current_price
    warrant.conversion_ratio warrant.exercise_price (some targetPrice)
  let sellPrice := estimatedSellPrice warrant underlyingPrice targetPrice
  let principal := warrant.current_price * quantity
  let buyFee := principal * feeSettings.buyFeePercent / 100
  let totalCost := principal + buyFee
  let grossRevenue := sellPrice * quantity
  let sellFee := grossRevenue * feeSettings.sellFeePercent / 100
  let sellTax := grossRevenue * feeSettings.sellTaxPercent / 100
  let netRevenue := grossRevenue - sellFee - sellTax
  let estimatedProfit := netRevenue - totalCost
  let estimatedProfitPercent := if totalCost > 0 then estimatedProfit / totalCost * 100 else 0
  let leverage :=
    if warrant.current_price > 0 ∧ warrant.conversion_ratio > 0 then
      underlyingPrice / (warrant.current_price * warrant.conversion_ratio)
    else 0
  { toWarrantItem := warrant
    breakEven := breakEvenResult.breakEvenPrice
    isProfitable := breakEvenResult.isProfitable
    profitMargin := breakEvenResult.profitMargin
    profitMarginPercent := breakEvenResult.profitMarginPercent
    estimatedProfit := estimatedProfit
    estimatedProfitPercent := estimatedProfitPercent
    totalCost := totalCost
    netRevenue := netRevenue
    leverage := leverage }

/-- `ProfitFilter` from hooks/useWarrantCalculations. -/
inductive ProfitFilter where
  | all
  | profitable
  | unprofitable
deriving DecidableEq, Repr

/-- `SortOption` from hooks/useWarrantCalculations. -/
inductive SortOption where
  | symbol
  | breakEven
  | margin
  | expiry
  | volume
deriving DecidableEq, Repr

/-- Embedding of `filterWarrantsByProfitability(data, filter)` from
hooks/useWarrantCalculations. -/
def filterWarrantsByProfitability (data : List WarrantTableRow)
    (filter : ProfitFilter) : List WarrantTableRow :=
  match filter with
  | .profitable => data.filter (fun w => w.estimatedProfit > 0)
  | .unprofitable => data.filter (fun w => w.estimatedProfit ≤ 0)
  | .all => data

/-- The expiry comparator of `sortWarrants` as a boolean order: `expiryLe a b`
holds exactly when the source comparator returns a non-positive number for
`(a, b)`, i.e. rows with unknown (negative) days go after all known values,
otherwise ascending by `days_to_maturity`. -/
def expiryLe (a b : WarrantTableRow) : Bool :=
  if a.days_to_maturity < 0 ∧ b.days_to_maturity ≥ 0 then false
  else if b.days_to_maturity < 0 ∧ a.days_to_maturity ≥ 0 then true
  else a.days_to_maturity ≤ b.days_to_maturity

/-- Embedding of `sortWarrants(data, sortBy)` from hooks/useWarrantCalculations.
The source copies the array and calls the ECMAScript stable sort with a
comparator; each comparator is embedded as the boolean order
`fun a b => comparator a b ≤ 0` and the stable sort as `List.mergeSort`. -/
def sortWarrants (data : List WarrantTableRow) (sortBy : SortOption) :
    List WarrantTableRow :=
  match sortBy with
  | .breakEven => data.mergeSort (fun a b => a.breakEven ≤ b.breakEven)
  | .margin => data.mergeSort (fun a b => b.profitMarginPercent ≤ a.profitMarginPercent)
  | .expiry => data.mergeSort expiryLe
  | .volume => data.mergeSort (fun a b => b.volume ≤ a.volume)
  | .symbol => data.mergeSort (fun a b => a.symbol ≤ b.symbol)

/-- A warrant quote with only `days_to_maturity` varying; used for concrete
screener-pipeline inputs. -/
def rowWithDays (d : ℚ) : WarrantTableRow :=
  { symbol := "", current_price := 0, conversion_ratio := 0, exercise_price := 0,
    days_to_maturity := d, volume := 0, breakEven := 0, isProfitable := false,
    profitMargin := 0, profitMarginPercent := 0, estimatedProfit := 0,
    estimatedProfitPercent := 0, totalCost := 0, netRevenue := 0, leverage := 0 }

/-- A warrant quote with only `estimatedProfit` varying; used for concrete
profitability-filter inputs. -/
def rowWithProfit (p : ℚ) : WarrantTableRow :=
  { symbol := "", current_price := 0, conversion_ratio := 0, exercise_price := 0,
    days_to_maturity := 0, volume := 0, breakEven := 0, isProfitable := false,
    profitMargin := 0, profitMarginPercent := 0, estimatedProfit := p,
    estimatedProfitPercent := 0, totalCost := 0, netRevenue := 0, leverage := 0 }

/-- The warrant of the price-projection example: current warrant price 1800,
conversion ratio 4, exercise price 45000, 20 days to maturity. -/
def exampleWarrant : WarrantItem :=
  { symbol := "CABC", current_price := 1800, conversion_ratio := 4,
    exercise_price := 45000, days_to_maturity := 20, volume := 0 }

/-- C6: calculateProfitLoss on the spec's worked example (buy 10000, sell
12000, quantity 100, buy fee 0.15%, sell fee 0.15%, tax 0.1%) returns exactly
the listed cost, revenue, profit, profit percentage and profitability flag. -/
theorem calculateProfitLoss_example :
    calculateProfitLoss 10000 12000 100 (15 / 100) (15 / 100) (1 / 10) =
      { cost := { principal := 1000000, buyFee := 1500, totalCost := 1001500 }
        revenue := { grossRevenue := 1200000, sellFee := 1800, sellTax := 1200,
                     netRevenue := 1197000 }
        profit := 195500
        profitPercent := 195500 / 1001500 * 100
        isProfit := true } := by
  norm_num [calculateProfitLoss, calculateCost, calculateRevenue]

/-- C3: the price-projection heuristic selects decay factor 1 when
daysToMaturity > 30, 0.8 when 14 < daysToMaturity ≤ 30, 0.5 otherwise, and the
estimated price is max(0, targetIntrinsicValue + currentTimeValue * decayFactor)
with the intrinsic/time values of §4.4; the estimate feeds the screener row's
revenue; on the worked example (underlying 50000, exercise 45000, ratio 4,
warrant price 1800, 20 days, target 53000) the estimate is 2440. -/
theorem estimatedSellPrice_spec (w : WarrantItem) (u t q : ℚ) (fs : FeeSettings) :
    (w.days_to_maturity > 30 → getTimeValueFactor w.days_to_maturity = 1) ∧
    (14 < w.days_to_maturity ∧ w.days_to_maturity ≤ 30 →
      getTimeValueFactor w.days_to_maturity = 8 / 10) ∧
    (w.days_to_maturity ≤ 14 → getTimeValueFactor w.days_to_maturity = 1 / 2) ∧
    estimatedSellPrice w u t =
      max 0 (max 0 ((t - w.exercise_price) / w.conversion_ratio) +
        max 0 (w.current_price - max 0 ((u - w.exercise_price) / w.conversion_ratio)) *
          getTimeValueFactor w.days_to_maturity) ∧
    (calculateWarrantMetrics w u t q fs).estimatedProfit =
      (calculateRevenue (estimatedSellPrice w u t) q fs.sellFeePercent
        fs.sellTaxPercent).netRevenue -
      (calculateCost w.current_price q fs.buyFeePercent).totalCost ∧
    estimatedSellPrice exampleWarrant 50000 53000 = 2440 := by
  refine ⟨?_, ?_, ?_, rfl, rfl, by norm_num [estimatedSellPrice, getTimeValueFactor, exampleWarrant]⟩
  · intro h
    simp [getTimeValueFactor, h]
  · rintro ⟨h1, h2⟩
    rw [getTimeValueFactor, if_neg (by linarith), if_pos h1]
  · intro h
    rw [getTimeValueFactor, if_neg (by linarith), if_neg (by linarith)]
    norm_num

/-- Witness for C3: decay factors at 40, 20 and 5 days, and the worked
projection example, obtained from the general theorem at concrete inputs. -/
theorem estimatedSellPrice_spec_witness :
    getTimeValueFactor (40 : ℚ) = 1 ∧ getTimeValueFactor (20 : ℚ) = 8 / 10 ∧
    getTimeValueFactor (5 : ℚ) = 1 / 2 ∧
    estimatedSellPrice exampleWarrant 50000 53000 = 2440 :=
  ⟨(estimatedSellPrice_spec (rowWithDays 40).toWarrantItem 0 0 0
      ⟨0, 0, 0⟩).1 (by norm_num [rowWithDays]),
   (estimatedSellPrice_spec (rowWithDays 20).toWarrantItem 0 0 0
      ⟨0, 0, 0⟩).2.1 (by norm_num [rowWithDays]),
   (estimatedSellPrice_spec (rowWithDays 5).toWarrantItem 0 0 0
      ⟨0, 0, 0⟩).2.2.1 (by norm_num [rowWithDays]),
   (estimatedSellPrice_spec exampleWarrant 0 0 0 ⟨0, 0, 0⟩).2.2.2.2.2⟩

/-- C5: every division in the core is guarded: zero total cost gives zero
profit percentage, zero break-even price gives zero profit-margin percentage,
and zero warrant price or conversion ratio gives zero leverage; no core
function raises an error (all embedded functions are total). -/
theorem division_guards :
    (∀ bp sp q bf sf tp : ℚ, (calculateCost bp q bf).totalCost = 0 →
      (calculateProfitLoss bp sp q bf sf tp).profitPercent = 0) ∧
    (∀ cw r e : ℚ, ∀ t : Option ℚ, (calculateBreakEven cw r e t).breakEvenPrice = 0 →
      (calculateBreakEven cw r e t).profitMarginPercent = 0) ∧
    (∀ w : WarrantItem, ∀ u tp q : ℚ, ∀ fs : FeeSettings,
      w.current_price = 0 ∨ w.conversion_ratio = 0 →
      (calculateWarrantMetrics w u tp q fs).leverage = 0) := by
  refine ⟨?_, ?_, ?_⟩
  · intro bp sp q bf sf tp h
    simp only [calculateProfitLoss, calculateCost] at h ⊢
    rw [if_neg (by rw [h]; exact lt_irrefl 0)]
  · intro cw r e t h
    simp only [calculateBreakEven] at h ⊢
    rw [if_neg (by rw [h]; exact lt_irrefl 0)]
  · intro w u tp q fs h
    simp only [calculateWarrantMetrics]
    rw [if_neg]
    rcases h with h | h
    · rintro ⟨h1, -⟩
      rw [h] at h1
      exact lt_irrefl 0 h1
    · rintro ⟨-, h2⟩
      rw [h] at h2
      exact lt_irrefl 0 h2

/-- Witness for C5: each guard fires at a concrete input. -/
theorem division_guards_witness :
    (calculateProfitLoss 0 7 0 1 1 1).profitPercent = 0 ∧
    (calculateBreakEven 0 5 0 (some 3)).profitMarginPercent = 0 ∧
    (calculateWarrantMetrics ⟨"", 0, 4, 1, 9, 0⟩ 10 11 100 ⟨1, 1, 1⟩).leverage = 0 :=
  ⟨division_guards.1 0 7 0 1 1 1 (by norm_num [calculateCost]),
   division_guards.2.1 0 5 0 (some 3) (by norm_num [calculateBreakEven]),
   division_guards.2.2 _ 10 11 100 ⟨1, 1, 1⟩ (Or.inl rfl)⟩

/-- C9: for a fixed positive conversion ratio and any exercise price, the
break-even price is strictly increasing in the warrant price. -/
theorem breakEven_strictMono (r e p1 p2 : ℚ) (t1 t2 : Option ℚ)
    (hr : 0 < r) (hp : p1 < p2) :
    (calculateBreakEven p1 r e t1).breakEvenPrice <
      (calculateBreakEven p2 r e t2).breakEvenPrice := by
  simp only [calculateBreakEven]
  exact add_lt_add_right (mul_lt_mul_of_pos_right hp hr) e

/-- Witness for C9 at ratio 4, exercise 45000, warrant prices 1500 < 1600. -/
theorem breakEven_strictMono_witness :
    (calculateBreakEven 1500 4 45000 none).breakEvenPrice <
      (calculateBreakEven 1600 4 45000 none).breakEvenPrice :=
  breakEven_strictMono 4 45000 1500 1600 none none (by norm_num) (by norm_num)

/-- C10: a supplied target underlying price of 0 behaves exactly like an
omitted target (the source tests the optional argument for truthiness):
`isProfitable` is false and `profitMargin` is 0, and `profitMarginPercent`
still equals profitMargin / breakEvenPrice * 100 when the break-even price is
positive. -/
theorem breakEven_target_zero (p r e : ℚ) :
    calculateBreakEven p r e (some 0) = calculateBreakEven p r e none ∧
    (calculateBreakEven p r e (some 0)).isProfitable = false ∧
    (calculateBreakEven p r e (some 0)).profitMargin = 0 ∧
    (0 < (calculateBreakEven p r e (some 0)).breakEvenPrice →
      (calculateBreakEven p r e (some 0)).profitMarginPercent =
        (calculateBreakEven p r e (some 0)).profitMargin /
          (calculateBreakEven p r e (some 0)).breakEvenPrice * 100) := by
  refine ⟨by simp [calculateBreakEven], by simp [calculateBreakEven],
    by simp [calculateBreakEven], ?_⟩
  intro h
  simp only [calculateBreakEven] at h ⊢
  rw [if_pos h]

/-- Witness for C10 at warrant price 1500, ratio 4, exercise 45000 (positive
break-even price 51000). -/
theorem breakEven_target_zero_witness :
    calculateBreakEven 1500 4 45000 (some 0) = calculateBreakEven 1500 4 45000 none ∧
    (calculateBreakEven 1500 4 45000 (some 0)).profitMarginPercent =
      (calculateBreakEven 1500 4 45000 (some 0)).profitMargin /
        (calculateBreakEven 1500 4 45000 (some 0)).breakEvenPrice * 100 :=
  ⟨(breakEven_target_zero 1500 4 45000).1,
   (breakEven_target_zero 1500 4 45000).2.2.2 (by norm_num [calculateBreakEven])⟩

/-- C8: calculateExerciseValue computes `exerciseProfit` only when a buy price
is supplied together with a positive quantity (per the data model quantity > 0
means "supplied"), returning 0 otherwise; when computed it is
intrinsicValue * quantity - totalCost(buyPrice, quantity, buyFeePercent), with
no sell fee or sell tax subtracted. -/
theorem exerciseProfit_spec (u e r cw q bf : ℚ) :
    (∀ bp : ℚ, 0 < q →
      (calculateExerciseValue u e r cw q (some bp) bf).exerciseProfit =
        (calculateExerciseValue u e r cw q (some bp) bf).intrinsicValue * q -
          (calculateCost bp q bf).totalCost) ∧
    (calculateExerciseValue u e r cw q none bf).exerciseProfit = 0 ∧
    (∀ bp : ℚ, q ≤ 0 →
      (calculateExerciseValue u e r cw q (some bp) bf).exerciseProfit = 0) := by
  refine ⟨?_, rfl, ?_⟩
  · intro bp hq
    simp only [calculateExerciseValue]
    rw [if_pos hq]
  · intro bp hq
    simp only [calculateExerciseValue]
    rw [if_neg (by exact fun h => absurd hq (not_le.mpr h))]

/-- Witness for C8: exercise profit at underlying 50000, exercise 45000,
ratio 4, quantity 100, buy price 1000, buy fee 0.15%, and the degenerate cases. -/
theorem exerciseProfit_spec_witness :
    (calculateExerciseValue 50000 45000 4 1800 100 (some 1000) (15 / 100)).exerciseProfit =
      (calculateExerciseValue 50000 45000 4 1800 100 (some 1000) (15 / 100)).intrinsicValue * 100 -
        (calculateCost 1000 100 (15 / 100)).totalCost ∧
    (calculateExerciseValue 50000 45000 4 1800 0 (some 1000) (15 / 100)).exerciseProfit = 0 :=
  ⟨(exerciseProfit_spec 50000 45000 4 1800 100 (15 / 100)).1 1000 (by norm_num),
   (exerciseProfit_spec 50000 45000 4 1800 0 (15 / 100)).2.2 1000 (by norm_num)⟩

lemma length_filter_pos_add_nonpos (data : List WarrantTableRow) :
    (data.filter (fun w => w.estimatedProfit > 0)).length +
      (data.filter (fun w => w.estimatedProfit ≤ 0)).length = data.length := by
  induction data with
  | nil => rfl
  | cons h tl ih =>
    by_cases hp : 0 < h.estimatedProfit
    · simp only [List.filter_cons, decide_eq_true_eq]
      rw [if_pos hp, if_neg (by simpa using hp)]
      simp only [List.length_cons]
      omega
    · simp only [List.filter_cons, decide_eq_true_eq]
      rw [if_neg hp, if_pos (not_lt.mp hp)]
      simp only [List.length_cons]
      omega

/-- C2: the profitability filter with key "all" returns every row; with key
"profitable" it returns exactly the rows with estimated profit > 0 and with
key "unprofitable" exactly the rows with estimated profit ≤ 0, each keeping
the rows' relative order (sublist of the input). -/
theorem filterWarrants_profitability_spec (data : List WarrantTableRow) :
    filterWarrantsByProfitability data .all = data ∧
    (filterWarrantsByProfitability data .profitable).Sublist data ∧
    (∀ w ∈ filterWarrantsByProfitability data .profitable, 0 < w.estimatedProfit) ∧
    (∀ w ∈ data, 0 < w.estimatedProfit →
      w ∈ filterWarrantsByProfitability data .profitable) ∧
    (filterWarrantsByProfitability data .unprofitable).Sublist data ∧
    (∀ w ∈ filterWarrantsByProfitability data .unprofitable, w.estimatedProfit ≤ 0) ∧
    (∀ w ∈ data, w.estimatedProfit ≤ 0 →
      w ∈ filterWarrantsByProfitability data .unprofitable) ∧
    (filterWarrantsByProfitability data .profitable).length +
      (filterWarrantsByProfitability data .unprofitable).length = data.length := by
  refine ⟨rfl, List.filter_sublist data, ?_, ?_, List.filter_sublist data, ?_, ?_,
    length_filter_pos_add_nonpos data⟩
  · intro w hw
    simp only [filterWarrantsByProfitability] at hw
    exact of_decide_eq_true (List.mem_filter.mp hw).2
  · intro w hw hpos
    simp only [filterWarrantsByProfitability]
    exact List.mem_filter.mpr ⟨hw, decide_eq_true hpos⟩
  · intro w hw
    simp only [filterWarrantsByProfitability] at hw
    exact of_decide_eq_true (List.mem_filter.mp hw).2
  · intro w hw hpos
    simp only [filterWarrantsByProfitability]
    exact List.mem_filter.mpr ⟨hw, decide_eq_true hpos⟩

/-- Witness for C2 on a concrete two-row list with profits 3 and -2. -/
theorem filterWarrants_profitability_spec_witness :
    rowWithProfit 3 ∈
      filterWarrantsByProfitability [rowWithProfit 3, rowWithProfit (-2)] .profitable ∧
    rowWithProfit (-2) ∈
      filterWarrantsByProfitability [rowWithProfit 3, rowWithProfit (-2)] .unprofitable ∧
    (filterWarrantsByProfitability [rowWithProfit 3, rowWithProfit (-2)] .profitable).length +
      (filterWarrantsByProfitability [rowWithProfit 3, rowWithProfit (-2)] .unprofitable).length = 2 :=
  ⟨(filterWarrants_profitability_spec [rowWithProfit 3, rowWithProfit (-2)]).2.2.2.1
      (rowWithProfit 3) (by simp) (by norm_num [rowWithProfit]),
   (filterWarrants_profitability_spec [rowWithProfit 3, rowWithProfit (-2)]).2.2.2.2.2.2.1
      (rowWithProfit (-2)) (by simp) (by norm_num [rowWithProfit]),
   (filterWarrants_profitability_spec [rowWithProfit 3, rowWithProfit (-2)]).2.2.2.2.2.2.2⟩

lemma expiryLe_nonneg_nonneg (a b : WarrantTableRow) (ha : 0 ≤ a.days_to_maturity)
    (hb : 0 ≤ b.days_to_maturity) :
    expiryLe a b = decide (a.days_to_maturity ≤ b.days_to_maturity) := by
  unfold expiryLe
  rw [if_neg (by rintro ⟨h, -⟩; linarith), if_neg (by rintro ⟨h, -⟩; linarith)]

lemma expiryLe_nonneg_neg (a b : WarrantTableRow) (ha : 0 ≤ a.days_to_maturity)
    (hb : b.days_to_maturity < 0) : expiryLe a b = true := by
  unfold expiryLe
  rw [if_neg (by rintro ⟨h, -⟩; linarith), if_pos ⟨hb, ha⟩]

lemma expiryLe_neg_nonneg (a b : WarrantTableRow) (ha : a.days_to_maturity < 0)
    (hb : 0 ≤ b.days_to_maturity) : expiryLe a b = false := by
  unfold expiryLe
  rw [if_pos ⟨ha, hb⟩]

lemma expiryLe_neg_neg (a b : WarrantTableRow) (ha : a.days_to_maturity < 0)
    (hb : b.days_to_maturity < 0) :
    expiryLe a b = decide (a.days_to_maturity ≤ b.days_to_maturity) := by
  unfold expiryLe
  rw [if_neg (by rintro ⟨-, h⟩; linarith), if_neg (by rintro ⟨-, h⟩; linarith)]

lemma expiryLe_total : ∀ a b : WarrantTableRow, expiryLe a b || expiryLe b a := by
  intro a b
  rcases lt_or_le a.days_to_maturity 0 with ha | ha <;>
    rcases lt_or_le b.days_to_maturity 0 with hb | hb
  · rw [expiryLe_neg_neg a b ha hb, expiryLe_neg_neg b a hb ha]
    rcases le_total a.days_to_maturity b.days_to_maturity with h | h <;> simp [h]
  · rw [expiryLe_nonneg_neg b a hb ha]
    simp
  · rw [expiryLe_nonneg_neg a b ha hb]
    simp
  · rw [expiryLe_nonneg_nonneg a b ha hb, expiryLe_nonneg_nonneg b a hb ha]
    rcases le_total a.days_to_maturity b.days_to_maturity with h | h <;> simp [h]

lemma expiryLe_trans : ∀ a b c : WarrantTableRow,
    expiryLe a b → expiryLe b c → expiryLe a c := by
  intro a b c hab hbc
  rcases lt_or_le a.days_to_maturity 0 with ha | ha <;>
    rcases lt_or_le b.days_to_maturity 0 with hb | hb <;>
    rcases lt_or_le c.days_to_maturity 0 with hc | hc
  · rw [expiryLe_neg_neg a b ha hb] at hab
    rw [expiryLe_neg_neg b c hb hc] at hbc
    rw [expiryLe_neg_neg a c ha hc]
    simp only [decide_eq_true_eq] at *
    linarith
  · rw [expiryLe_neg_nonneg b c hb hc] at hbc
    exact absurd hbc (by simp)
  · rw [expiryLe_neg_nonneg a b ha hb] at hab
    exact absurd hab (by simp)
  · rw [expiryLe_neg_nonneg a b ha hb] at hab
    exact absurd hab (by simp)
  · rw [expiryLe_nonneg_neg a c ha hc]
  · rw [expiryLe_neg_nonneg b c hb hc] at hbc
    exact absurd hbc (by simp)
  · rw [expiryLe_nonneg_neg a c ha hc]
  · rw [expiryLe_nonneg_nonneg a b ha hb] at hab
    rw [expiryLe_nonneg_nonneg b c hb hc] at hbc
    rw [expiryLe_nonneg_nonneg a c ha hc]
    simp only [decide_eq_true_eq] at *
    linarith

lemma expiryLe_of_days_eq (a b : WarrantTableRow)
    (h : a.days_to_maturity = b.days_to_maturity) : expiryLe a b := by
  rcases lt_or_le a.days_to_maturity 0 with ha | ha
  · rw [expiryLe_neg_neg a b ha (h ▸ ha)]
    simp [h]
  · rw [expiryLe_nonneg_nonneg a b ha (h ▸ ha)]
    simp [h]

lemma expiryLe_consequences (a b : WarrantTableRow) (h : expiryLe a b = true) :
    (0 ≤ a.days_to_maturity → 0 ≤ b.days_to_maturity →
      a.days_to_maturity ≤ b.days_to_maturity) ∧
    ¬(a.days_to_maturity < 0 ∧ 0 ≤ b.days_to_maturity) := by
  constructor
  · intro ha hb
    rw [expiryLe_nonneg_nonneg a b ha hb] at h
    exact of_decide_eq_true h
  · rintro ⟨ha, hb⟩
    rw [expiryLe_neg_nonneg a b ha hb] at h
    exact Bool.false_ne_true h

/-- C4: the "expiry" sort is a permutation of the input in which rows with
known (≥ 0) daysToMaturity come in ascending order, every unknown-maturity
(negative) row comes after all known rows, ties keep their input order, and
the concrete list with daysToMaturity {-1, 5, 20, 40} sorts to [5, 20, 40, -1]. -/
theorem sortWarrants_expiry_spec (data : List WarrantTableRow) :
    (sortWarrants data .expiry).Perm data ∧
    List.Pairwise (fun a b => 0 ≤ a.days_to_maturity → 0 ≤ b.days_to_maturity →
      a.days_to_maturity ≤ b.days_to_maturity) (sortWarrants data .expiry) ∧
    List.Pairwise (fun a b => ¬(a.days_to_maturity < 0 ∧ 0 ≤ b.days_to_maturity))
      (sortWarrants data .expiry) ∧
    (∀ a b : WarrantTableRow, a.days_to_maturity = b.days_to_maturity →
      [a, b].Sublist data → [a, b].Sublist (sortWarrants data .expiry)) ∧
    sortWarrants [rowWithDays (-1), rowWithDays 5, rowWithDays 20, rowWithDays 40]
        .expiry =
      [rowWithDays 5, rowWithDays 20, rowWithDays 40, rowWithDays (-1)] := by
  have hsorted := @List.sorted_mergeSort _ expiryLe expiryLe_trans expiryLe_total data
  refine ⟨List.mergeSort_perm data expiryLe, ?_, ?_, ?_, ?_⟩
  · exact hsorted.imp (fun h => (expiryLe_consequences _ _ h).1)
  · exact hsorted.imp (fun h => (expiryLe_consequences _ _ h).2)
  · intro a b hdays hsub
    exact List.sublist_mergeSort expiryLe_trans expiryLe_total
      (by simpa using expiryLe_of_days_eq a b hdays) hsub
  · norm_num [sortWarrants, List.mergeSort, List.merge, expiryLe, rowWithDays]

/-- Witness for C4: a concrete tie keeps its input order, and the concrete
four-row list sorts to [5, 20, 40, -1]. -/
theorem sortWarrants_expiry_spec_witness :
    [rowWithDays 7, rowWithDays 7].Sublist
      (sortWarrants [rowWithDays 7, rowWithDays 7] .expiry) ∧
    sortWarrants [rowWithDays (-1), rowWithDays 5, rowWithDays 20, rowWithDays 40]
        .expiry =
      [rowWithDays 5, rowWithDays 20, rowWithDays 40, rowWithDays (-1)] :=
  ⟨(sortWarrants_expiry_spec [rowWithDays 7, rowWithDays 7]).2.2.2.1 _ _ rfl
      (List.Sublist.refl _),
   (sortWarrants_expiry_spec [rowWithDays (-1)]).2.2.2.2⟩

/-- Counterexample for C1: with scenario-specific rates (sell fee 2%, tax
0.5%) differing from the FeeSettings defaults (0.15%, 0.1%), the scenario
table builder hook computes the row's sell fee from the FeeSettings, not from
the scenario's own rates as the claim states. -/
theorem calculateScenarioRow_ignores_scenario_rates :
    (calculateScenarioRow ⟨"s1", 12000, 2, 1 / 2⟩ ⟨"AAA", 10000, 100, 15 / 100⟩
        ⟨15 / 100, 15 / 100, 1 / 10⟩ false).sellFee ≠
      (calculateProfitLoss 10000 12000 100 (15 / 100) 2 (1 / 2)).revenue.sellFee := by
  norm_num [calculateScenarioRow, calculateProfitLoss, calculateRevenue, calculateCost]

/-- C1 (amended): the useScenarioCalculations builder computes every row's
profit/loss with the FeeSettings' rates, ignoring the scenario's own
sellFeePercent and taxPercent entirely (two scenarios agreeing on id and sell
price yield identical rows); the analysis page's builder and the core
calculateScenario use the scenario's own rates. -/
theorem scenarioBuilder_rates (s1 s2 : StockScenario) (position : StockPosition)
    (fs : FeeSettings) (isW : Bool) (wpos : WarrantPosition)
    (wsc : WarrantScenario) :
    (s1.id = s2.id → s1.sellPrice = s2.sellPrice →
      calculateScenarioRow s1 position fs isW = calculateScenarioRow s2 position fs isW) ∧
    (calculateScenarioRow s1 position fs isW).sellFee =
      (calculateProfitLoss position.buyPrice s1.sellPrice position.quantity
        fs.buyFeePercent fs.sellFeePercent fs.sellTaxPercent).revenue.sellFee ∧
    (calculateScenarioRow s1 position fs isW).sellTax =
      (calculateProfitLoss position.buyPrice s1.sellPrice position.quantity
        fs.buyFeePercent fs.sellFeePercent fs.sellTaxPercent).revenue.sellTax ∧
    (calculateScenarioRow s1 position fs isW).profit =
      (calculateProfitLoss position.buyPrice s1.sellPrice position.quantity
        fs.buyFeePercent fs.sellFeePercent fs.sellTaxPercent).profit ∧
    (pageScenarioRow position s1 isW).sellFee =
      (calculateProfitLoss position.buyPrice s1.sellPrice position.quantity
        position.buyFeePercent s1.sellFeePercent s1.taxPercent).revenue.sellFee ∧
    (pageScenarioRow position s1 isW).profit =
      (calculateProfitLoss position.buyPrice s1.sellPrice position.quantity
        position.buyFeePercent s1.sellFeePercent s1.taxPercent).profit ∧
    (calculateScenario wpos wsc).profitLoss =
      calculateProfitLoss wpos.buyPrice wsc.sellPrice wpos.quantity
        wpos.buyFeePercent wsc.sellFeePercent wsc.taxPercent := by
  refine ⟨?_, rfl, rfl, rfl, rfl, rfl, rfl⟩
  intro hid hsp
  obtain ⟨i1, p1, f1, t1⟩ := s1
  obtain ⟨i2, p2, f2, t2⟩ := s2
  simp only at hid hsp
  subst hid hsp
  rfl

/-- Witness for (amended) C1: a scenario with sell fee 2% and tax 0.5%
produces the same row as one with the default 0.15% and 0.1% rates. -/
theorem scenarioBuilder_rates_witness :
    calculateScenarioRow ⟨"s1", 12000, 2, 1 / 2⟩ ⟨"AAA", 10000, 100, 15 / 100⟩
        ⟨15 / 100, 15 / 100, 1 / 10⟩ false =
      calculateScenarioRow ⟨"s1", 12000, 15 / 100, 1 / 10⟩ ⟨"AAA", 10000, 100, 15 / 100⟩
        ⟨15 / 100, 15 / 100, 1 / 10⟩ false :=
  (scenarioBuilder_rates ⟨"s1", 12000, 2, 1 / 2⟩ ⟨"s1", 12000, 15 / 100, 1 / 10⟩
    ⟨"AAA", 10000, 100, 15 / 100⟩ ⟨15 / 100, 15 / 100, 1 / 10⟩ false
    ⟨"", 0, 0, 0⟩ ⟨"", 0, 0, 0⟩).1 rfl rfl

/-- Counterexample for C7: for the stock position (buy 10000, quantity 100,
buy fee 0.15%) and scenario (sell 12000, sell fee 0.15%, tax 0.1%) the row's
break-even price is 10045, but selling 100 units at 10045 with those rates
nets 1001988.75, not the total cost 1001500 — the fee and tax inside the
break-even figure are computed at the scenario's sell price, not at the
break-even price. -/
theorem pageScenarioRow_breakEven_not_cost_recovering :
    (pageScenarioRow ⟨"AAA", 10000, 100, 15 / 100⟩ ⟨"s1", 12000, 15 / 100, 1 / 10⟩
        false).breakEvenPrice = some 10045 ∧
    (calculateRevenue 10045 100 (15 / 100) (1 / 10)).netRevenue ≠
      (calculateCost 10000 100 (15 / 100)).totalCost := by
  constructor
  · norm_num [pageScenarioRow, calculateProfitLoss, calculateRevenue, calculateCost]
  · norm_num [calculateRevenue, calculateCost]

/-- C7 (amended): for a non-warrant position with positive quantity, the row's
break-even price is defined, and its gross proceeds
(breakEvenPrice * quantity) equal the total cost (principal plus buy fee) plus
the row's sell fee and sell tax, both computed at the scenario's sell price. -/
theorem pageScenarioRow_breakEven_gross (position : StockPosition)
    (scenario : StockScenario) (hq : 0 < position.quantity) :
    (pageScenarioRow position scenario false).breakEvenPrice =
      some ((pageScenarioRow position scenario false).breakEvenPrice.getD 0) ∧
    (pageScenarioRow position scenario false).breakEvenPrice.getD 0 *
        position.quantity =
      (calculateCost position.buyPrice position.quantity
        position.buyFeePercent).totalCost +
        (pageScenarioRow position scenario false).sellFee +
        (pageScenarioRow position scenario false).sellTax := by
  have hq0 : position.quantity ≠ 0 := ne_of_gt hq
  constructor
  · simp [pageScenarioRow]
  · simp only [pageScenarioRow, calculateProfitLoss, calculateRevenue, calculateCost,
      Bool.false_eq_true, if_false, Option.getD_some]
    rw [if_pos hq]
    field_simp
    ring

/-- Witness for (amended) C7 at the concrete position (buy 10000, quantity
100, buy fee 0.15%) and scenario (sell 12000, sell fee 0.15%, tax 0.1%). -/
theorem pageScenarioRow_breakEven_gross_witness :
    (pageScenarioRow ⟨"AAA", 10000, 100, 15 / 100⟩ ⟨"s1", 12000, 15 / 100, 1 / 10⟩
        false).breakEvenPrice.getD 0 * 100 =
      (calculateCost 10000 100 (15 / 100)).totalCost +
        (pageScenarioRow ⟨"AAA", 10000, 100, 15 / 100⟩
          ⟨"s1", 12000, 15 / 100, 1 / 10⟩ false).sellFee +
        (pageScenarioRow ⟨"AAA", 10000, 100, 15 / 100⟩
          ⟨"s1", 12000, 15 / 100, 1 / 10⟩ false).sellTax :=
  (pageScenarioRow_breakEven_gross ⟨"AAA", 10000, 100, 15 / 100⟩
    ⟨"s1", 12000, 15 / 100, 1 / 10⟩ (by norm_num)).2

end WarrantAnalyzer
